import Mathlib

/-!
Shallow embedding of `compress.py`, a one-shot batch image optimizer:
for each image file under an input root it writes a width-capped hi-res
JPEG, a JPEG thumbnail, and optionally a WebP copy, mirroring the
directory tree under an output root.

Modelling conventions:
* Machine integers are `Nat`; Python `int(h * (target_w / float(w)))`
  truncates toward zero, which for the non-negative values involved is
  `h * target_w / w` in `Nat` (exact rational floor; binary-float
  rounding of the intermediate ratio is not modelled).
* Paths are structural: a relative path is a list of directory
  components plus a `stem`/`ext` split exactly as `pathlib` splits the
  final component (`ext` is the suffix starting with the last dot);
  `with_suffix` replaces `ext`.
* Filesystem writes and console prints are modelled as an event trace
  returned by `process_one`; an output file is a `Event.write`, a
  console line is a `Event.notice`.
* Fallibility: a decode error (`Image.open`/`img.load` raising) is a
  `SourceFile` whose `img` is `none`; an encode/write error is an
  injected fault `failSave = some (k, e)` meaning the k-th save call
  (0-based, in program order) raises with message `e`, so the saves
  before it have already happened and everything after it does not.
-/

namespace Compress

/-- PIL color modes relevant to the pipeline. `RGB` is 3-channel, `RGBA`
4-channel with alpha, `L` grayscale, `LA` grayscale with alpha, `P`
palette, `CMYK` 4-channel print. -/
inductive Mode where
  | RGB
  | RGBA
  | L
  | LA
  | P
  | CMYK
  deriving DecidableEq, Repr

/-- An in-memory decoded bitmap: width, height, color mode, raw pixel
data and embedded container metadata (EXIF and the like). Pixel data is
carried abstractly as a list; the claims under study concern dimensions,
mode and metadata, not resampled pixel values. -/
structure Img where
  width : Nat
  height : Nat
  mode : Mode
  data : List Nat
  metadata : List String
  deriving DecidableEq, Repr

/-- `img.size` in PIL: the `(width, height)` pair. -/
def Img.size (img : Img) : Nat × Nat := (img.width, img.height)

/-- `img.convert(m)`: re-expresses the image in color mode `m` (pixel
values change under conversion; the data list is kept abstract).
Converting an alpha-carrying mode to `RGB` discards the alpha channel. -/
def Img.convert (img : Img) (m : Mode) : Img := { img with mode := m }

/-- A source image has transparency when its color mode carries an alpha
channel (here the modes `RGBA` and `LA`). -/
def hasTransparency (img : Img) : Bool :=
  img.mode == Mode.RGBA || img.mode == Mode.LA

/-- `strip_exif` from the source: if the mode is neither `RGB` nor
`RGBA`, convert to `RGB`; then rebuild a brand-new image
(`Image.new(img.mode, img.size)` + `putdata`) holding only the raw
pixel values, hence with no metadata. -/
def strip_exif (img : Img) : Img :=
  let img1 := if img.mode ≠ Mode.RGB ∧ img.mode ≠ Mode.RGBA
              then img.convert Mode.RGB else img
  { width := img1.width, height := img1.height, mode := img1.mode,
    data := img1.data, metadata := [] }

/-- `resize_by_width` from the source: return the image unchanged when
its width is at most the target; otherwise resize to the target width
with height `int(h * (target_w / float(w)))`, i.e. `h * target_w / w`
rounded down (LANCZOS resampling of the pixel content is abstract). -/
def resize_by_width (img : Img) (target_w : Nat) : Img :=
  if img.width ≤ target_w then img
  else { img with width := target_w,
                  height := img.height * target_w / img.width }

/-- A path relative to the input root: directory components, then the
final component split as `pathlib` does into `stem` and suffix `ext`
(the suffix includes its leading dot; it is empty when the name has no
dot). -/
structure RelPath where
  dirs : List String
  stem : String
  ext : String
  deriving DecidableEq, Repr

/-- `rel.with_suffix(e)`: replace the suffix of the final component. -/
def RelPath.with_suffix (p : RelPath) (e : String) : RelPath :=
  { p with ext := e }

/-- Python `str.lower()`, character by character (the extensions under
comparison are ASCII, where this agrees with Unicode lowercasing). -/
def lower (s : String) : String := ⟨s.data.map Char.toLower⟩

/-- An absolute output path, structurally: directory components from the
filesystem root, then the final component's stem and suffix. -/
structure OutPath where
  dirs : List String
  stem : String
  ext : String
  deriving DecidableEq, Repr

/-- Joining an output root onto a relative path (`root / rel`). -/
def joinOut (root : List String) (rel : RelPath) : OutPath :=
  { dirs := root ++ rel.dirs, stem := rel.stem, ext := rel.ext }

/-- `OUT_DIR = Path("images_optimized")`. -/
def OUT_DIR : List String := ["images_optimized"]

/-- `THUMB_DIR = OUT_DIR / "thumbs"`. -/
def THUMB_DIR : List String := OUT_DIR ++ ["thumbs"]

/-- `SUPPORTED = (".jpg", ".jpeg", ".png")`. -/
def SUPPORTED : List String := [".jpg", ".jpeg", ".png"]

/-- The configuration constants of the script, with the source's default
values in `defaultConfig`. -/
structure Config where
  MAX_WIDTH_HI : Nat
  THUMB_WIDTH : Nat
  JPEG_QUALITY : Nat
  WEBP_QUALITY : Nat
  MAKE_WEBP : Bool
  STRIP_EXIF : Bool
  deriving DecidableEq, Repr

/-- The constant block at the top of `compress.py`. -/
def defaultConfig : Config :=
  { MAX_WIDTH_HI := 1600, THUMB_WIDTH := 400, JPEG_QUALITY := 85,
    WEBP_QUALITY := 80, MAKE_WEBP := true, STRIP_EXIF := true }

/-- `out_hi = OUT_DIR / rel.with_suffix(".jpg")`. -/
def out_hi (rel : RelPath) : OutPath :=
  joinOut OUT_DIR (rel.with_suffix ".jpg")

/-- `out_webp = OUT_DIR / rel.with_suffix(".webp")`. -/
def out_webp (rel : RelPath) : OutPath :=
  joinOut OUT_DIR (rel.with_suffix ".webp")

/-- `out_thumb = THUMB_DIR / rel.with_suffix(".jpg")`. -/
def out_thumb (rel : RelPath) : OutPath :=
  joinOut THUMB_DIR (rel.with_suffix ".jpg")

/-- Encoded output formats. -/
inductive Format where
  | JPEG
  | WEBP
  deriving DecidableEq, Repr

/-- A console line: the empty-file warning, the per-file success line
(which mentions whether a WebP was made), or the per-file failure line
naming the source and the error. -/
inductive Notice where
  | warnEmpty (src : RelPath)
  | success (src : RelPath) (madeWebp : Bool)
  | failure (src : RelPath) (err : String)
  deriving DecidableEq, Repr

/-- An observable effect of processing one file: an output file written
(path, image content, format, quality), or a console notice. Directory
creation (`mkdir`) is effect-free for the properties under study and is
not traced. -/
inductive Event where
  | write (path : OutPath) (img : Img) (fmt : Format) (quality : Nat)
  | notice (n : Notice)
  deriving DecidableEq, Repr

/-- Whether an event is an output-file write. -/
def Event.isWrite : Event → Bool
  | Event.write _ _ _ _ => true
  | Event.notice _ => false

/-- Whether an event is a WebP output-file write. -/
def Event.isWebpWrite : Event → Bool
  | Event.write _ _ Format.WEBP _ => true
  | _ => false

/-- `save_jpeg(img, path, quality)`: one JPEG write (the fixed encoder
parameters `optimize`, `progressive`, 4:2:0 subsampling are not
modelled beyond the format tag). -/
def save_jpeg (img : Img) (path : OutPath) (quality : Nat) : Event :=
  Event.write path img Format.JPEG quality

/-- `save_webp(img, path, quality)`: one WebP write (`method=6`, the
maximum compression effort, is not modelled beyond the format tag). -/
def save_webp (img : Img) (path : OutPath) (quality : Nat) : Event :=
  Event.write path img Format.WEBP quality

/-- The mode-normalization step of `process_one`: strip metadata when
`STRIP_EXIF` is set, otherwise only convert to `RGB` when the mode is
neither `RGB` nor `RGBA`. -/
def normalize (cfg : Config) (img : Img) : Img :=
  if cfg.STRIP_EXIF then strip_exif img
  else if img.mode ≠ Mode.RGB ∧ img.mode ≠ Mode.RGBA
       then img.convert Mode.RGB else img

/-- The hi-res derived image: the normalized image capped at
`MAX_WIDTH_HI`. -/
def hiOf (cfg : Config) (img : Img) : Img :=
  resize_by_width (normalize cfg img) cfg.MAX_WIDTH_HI

/-- The thumbnail derived image: the normalized image capped at
`THUMB_WIDTH`. -/
def thumbOf (cfg : Config) (img : Img) : Img :=
  resize_by_width (normalize cfg img) cfg.THUMB_WIDTH

/-- The save calls `process_one` performs for one decoded image, in
program order: hi-res JPEG at `JPEG_QUALITY`, thumbnail JPEG at quality
70, then — only when `MAKE_WEBP` is set — a WebP encoded from the hi-res
derived image. -/
def savesOf (cfg : Config) (rel : RelPath) (img : Img) : List Event :=
  [save_jpeg (hiOf cfg img) (out_hi rel) cfg.JPEG_QUALITY,
   save_jpeg (thumbOf cfg img) (out_thumb rel) 70] ++
  (if cfg.MAKE_WEBP then [save_webp (hiOf cfg img) (out_webp rel) cfg.WEBP_QUALITY]
   else [])

/-- A candidate file as the traversal hands it to `process_one`: its
path relative to `SRC_DIR`, its byte size, what it decodes to (`none`
models `Image.open`/`load` raising on a corrupt file), and an optional
injected encode/write fault (see the module docstring). -/
structure SourceFile where
  rel : RelPath
  size : Nat
  img : Option Img
  failSave : Option (Nat × String)
  deriving DecidableEq, Repr

/-- `process_one` from the source, as the event trace it produces.
The whole body sits in one `try`: an unsupported suffix returns silently;
a zero-byte file prints one warning and returns; otherwise the image is
decoded, normalized, and the saves run in order until they all succeed
(success line) or one raises (the `except` prints one failure line naming
the source and the error, and already-performed writes stay). -/
def process_one (cfg : Config) (f : SourceFile) : List Event :=
  if lower f.rel.ext ∉ SUPPORTED then []
  else if f.size = 0 then [Event.notice (Notice.warnEmpty f.rel)]
  else
    match f.img with
    | none => [Event.notice (Notice.failure f.rel "decode")]
    | some img =>
      match f.failSave with
      | some (k, e) =>
        (savesOf cfg f.rel img).take k ++ [Event.notice (Notice.failure f.rel e)]
      | none =>
        savesOf cfg f.rel img ++ [Event.notice (Notice.success f.rel cfg.MAKE_WEBP)]

/-- The traversal driver: `os.walk` visits every file and each is handed
to `process_one`; traces concatenate in visit order. -/
def runBatch (cfg : Config) : List SourceFile → List Event
  | [] => []
  | f :: fs => process_one cfg f ++ runBatch cfg fs

/-- `main`: `ensure_dirs` (untraced) then the walk over the input tree,
whose visited files are the model's input list. -/
def main (cfg : Config) (files : List SourceFile) : List Event :=
  runBatch cfg files

/-! Concrete inputs used by witnesses and counterexamples. -/

/-- A 1200×800 opaque RGB image (the spec's `cat.png` example). -/
def catImg : Img :=
  { width := 1200, height := 800, mode := Mode.RGB, data := [], metadata := [] }

/-- A grayscale-plus-alpha image: it has transparency but is not RGBA. -/
def laImg : Img :=
  { width := 10, height := 5, mode := Mode.LA, data := [], metadata := ["exif"] }

/-- A 1000×1 image, much wider than tall. -/
def tallImg : Img :=
  { width := 1000, height := 1, mode := Mode.RGB, data := [], metadata := [] }

/-- A well-formed source file that processes successfully. -/
def okFile : SourceFile :=
  { rel := { dirs := ["a"], stem := "cat", ext := ".png" },
    size := 5, img := some catImg, failSave := none }

/-- A file with an unsupported extension. -/
def gifFile : SourceFile :=
  { rel := { dirs := [], stem := "anim", ext := ".gif" },
    size := 10, img := some catImg, failSave := none }

/-- A zero-byte file with a supported extension. -/
def emptyFile : SourceFile :=
  { rel := { dirs := ["a"], stem := "blank", ext := ".jpg" },
    size := 0, img := none, failSave := none }

/-- A file whose second save call (the thumbnail write) raises. -/
def badFile : SourceFile :=
  { rel := { dirs := ["b"], stem := "dog", ext := ".jpg" },
    size := 7, img := some catImg, failSave := some (1, "broken") }

/-- A source living under a `thumbs/` subdirectory of the input root. -/
def relThumbSrc : RelPath := { dirs := ["thumbs"], stem := "x", ext := ".png" }

/-- A source at the input root with the same stem. -/
def relPlain : RelPath := { dirs := [], stem := "x", ext := ".jpg" }

/-- Like `relPlain` but with the `.jpeg` spelling of the extension. -/
def relPlainJpeg : RelPath := { dirs := [], stem := "x", ext := ".jpeg" }

/-! Helper lemmas, shared by several results below. -/

theorem resize_eq_of_le (img : Img) (t : Nat) (h : img.width ≤ t) :
    resize_by_width img t = img := by
  simp [resize_by_width, h]

theorem resize_width_of_lt (img : Img) (t : Nat) (h : t < img.width) :
    (resize_by_width img t).width = t := by
  rw [resize_by_width, if_neg (by omega)]

theorem resize_height_of_lt (img : Img) (t : Nat) (h : t < img.width) :
    (resize_by_width img t).height = img.height * t / img.width := by
  rw [resize_by_width, if_neg (by omega)]

theorem resize_width_eq_min (img : Img) (t : Nat) :
    (resize_by_width img t).width = min img.width t := by
  rw [resize_by_width]
  split
  · omega
  · show t = min img.width t
    omega

theorem strip_exif_width (img : Img) : (strip_exif img).width = img.width := by
  simp only [strip_exif, Img.convert]
  split <;> rfl

theorem normalize_width (cfg : Config) (img : Img) :
    (normalize cfg img).width = img.width := by
  unfold normalize
  split
  · exact strip_exif_width img
  · split <;> rfl

/-! ## Claim C1 -/

/-- C1: the width-capped resize returns the image unchanged whenever its
width is at most the target (no upscaling); hence under the default
configuration the hi-res derivative's width is at most 1600 and equals
the source width when that is at most 1600, and the thumbnail
derivative's width is at most 400 under the same rule. -/
theorem resize_no_upscale :
    (∀ (img : Img) (t : Nat), img.width ≤ t → resize_by_width img t = img) ∧
    ∀ img : Img,
      (hiOf defaultConfig img).width ≤ 1600 ∧
      (img.width ≤ 1600 → (hiOf defaultConfig img).width = img.width) ∧
      (thumbOf defaultConfig img).width ≤ 400 ∧
      (img.width ≤ 400 → (thumbOf defaultConfig img).width = img.width) := by
  refine ⟨fun img t h => resize_eq_of_le img t h, fun img => ?_⟩
  have hn := normalize_width defaultConfig img
  have hhi := resize_width_eq_min (normalize defaultConfig img) 1600
  have hth := resize_width_eq_min (normalize defaultConfig img) 400
  unfold hiOf thumbOf
  have hc1 : defaultConfig.MAX_WIDTH_HI = 1600 := rfl
  have hc2 : defaultConfig.THUMB_WIDTH = 400 := rfl
  rw [hc1, hc2]
  omega

/-- Witness for C1: a 1000×1 image is untouched by a 1600 cap, and the
1200-wide example keeps its width in the hi-res derivative. -/
theorem resize_no_upscale_witness :
    resize_by_width tallImg 1600 = tallImg ∧
    (hiOf defaultConfig catImg).width = catImg.width :=
  ⟨resize_no_upscale.1 tallImg 1600 (by decide),
   (resize_no_upscale.2 catImg).2.1 (by decide)⟩

/-! ## Claim C2 -/

/-- C2 counterexample: the claim's height formula is `round`, but the
code truncates: resizing the 1200×800 example to target width 400 gives
height 266, not the claimed 267 (= round(800·400/1200)). -/
theorem resize_round_counterexample :
    (resize_by_width catImg 400).width = 400 ∧
    (resize_by_width catImg 400).height = 266 ∧
    (resize_by_width catImg 400).height ≠ 267 := by decide

/-- C2 amended: for every image whose width exceeds the target, the
resize produces exactly the target width, and height
`int(h · (t / w))`, i.e. `h·t/w` rounded toward zero (floor), not
`round`; in particular the 1200×800 example at target 400 yields
400×266. -/
theorem resize_floor_dims (img : Img) (t : Nat) (h : t < img.width) :
    (resize_by_width img t).width = t ∧
    (resize_by_width img t).height = img.height * t / img.width :=
  ⟨resize_width_of_lt img t h, resize_height_of_lt img t h⟩

/-- Witness for C2 (amended): the 1200×800 example at target 400. -/
theorem resize_floor_dims_witness :
    (resize_by_width catImg 400).width = 400 ∧
    (resize_by_width catImg 400).height = catImg.height * 400 / catImg.width :=
  resize_floor_dims catImg 400 (by decide)

/-! ## Claim C9 -/

/-- C9: the width-capped resize is idempotent — for every image and
positive target width, resizing twice with the same target equals
resizing once (the first pass leaves the width at most the target, so
the second pass returns its input unchanged). -/
theorem resize_idempotent (img : Img) (t : Nat) (h : 0 < t) :
    resize_by_width (resize_by_width img t) t = resize_by_width img t := by
  by_cases hw : img.width ≤ t
  · rw [resize_eq_of_le img t hw, resize_eq_of_le img t hw]
  · exact resize_eq_of_le _ t (le_of_eq (resize_width_of_lt img t (by omega)))

/-- Witness for C9: the 1200×800 example at target 400. -/
theorem resize_idempotent_witness :
    resize_by_width (resize_by_width catImg 400) 400 = resize_by_width catImg 400 :=
  resize_idempotent catImg 400 (by decide)

/-! ## Claim C10 -/

/-- C10: when the width exceeds the target and `height · target < width`,
the computed output height `int(h · (t / w))` is 0 — the resize does not
guarantee a positive height on positive-dimension inputs. -/
theorem resize_can_zero_height (img : Img) (t : Nat) (h1 : t < img.width)
    (h2 : img.height * t < img.width) :
    (resize_by_width img t).height = 0 := by
  rw [resize_height_of_lt img t h1]
  exact Nat.div_eq_of_lt h2

/-- Witness for C10: a 1000×1 image resized to target width 400 has
output height 0 despite both source dimensions being positive. -/
theorem resize_can_zero_height_witness :
    0 < tallImg.width ∧ 0 < tallImg.height ∧
    (resize_by_width tallImg 400).height = 0 :=
  ⟨by decide, by decide, resize_can_zero_height tallImg 400 (by decide) (by decide)⟩

/-! ## Claim C3 -/

/-- C3: a path whose lowercased extension is not in the accepted set
produces an empty trace — no output file is written and no console
notice is emitted. -/
theorem unsupported_ext_silent (cfg : Config) (f : SourceFile)
    (h : lower f.rel.ext ∉ SUPPORTED) :
    process_one cfg f = [] := by
  simp [process_one, h]

/-- Witness for C3: a `.gif` file is silently ignored. -/
theorem unsupported_ext_silent_witness :
    process_one defaultConfig gifFile = [] :=
  unsupported_ext_silent defaultConfig gifFile (by decide)

/-! ## Claim C4 -/

/-- C4: a zero-byte file with a supported extension produces exactly one
warning notice and no output writes. -/
theorem empty_file_warned (cfg : Config) (f : SourceFile)
    (hext : lower f.rel.ext ∈ SUPPORTED) (hsz : f.size = 0) :
    process_one cfg f = [Event.notice (Notice.warnEmpty f.rel)] ∧
    ∀ e ∈ process_one cfg f, e.isWrite = false := by
  have h1 : process_one cfg f = [Event.notice (Notice.warnEmpty f.rel)] := by
    simp [process_one, hext, hsz]
  refine ⟨h1, fun e he => ?_⟩
  rw [h1] at he
  simp only [List.mem_singleton] at he
  subst he
  rfl

/-- Witness for C4: a zero-byte `.jpg` is skipped with one warning. -/
theorem empty_file_warned_witness :
    process_one defaultConfig emptyFile =
      [Event.notice (Notice.warnEmpty emptyFile.rel)] :=
  (empty_file_warned defaultConfig emptyFile (by decide) rfl).1

/-! ## Claim C5 -/

theorem runBatch_append (cfg : Config) (a b : List SourceFile) :
    runBatch cfg (a ++ b) = runBatch cfg a ++ runBatch cfg b := by
  induction a with
  | nil => rfl
  | cons f fs ih => simp [runBatch, ih]

/-- C5: an exception during encode/write of one file is contained at the
single-file level: the file's trace is exactly the saves already
performed before the failure (they are kept, not rolled back) followed
by one failure notice naming the source and the error, and the batch
trace around that file is unaffected — the walk continues with the
remaining files. -/
theorem per_file_failure_contained (cfg : Config) (l1 l2 : List SourceFile)
    (f : SourceFile) (img : Img) (k : Nat) (e : String)
    (hext : lower f.rel.ext ∈ SUPPORTED) (hsz : f.size ≠ 0)
    (himg : f.img = some img) (hfail : f.failSave = some (k, e)) :
    process_one cfg f =
      (savesOf cfg f.rel img).take k ++
        [Event.notice (Notice.failure f.rel e)] ∧
    Event.notice (Notice.failure f.rel e) ∈ process_one cfg f ∧
    main cfg (l1 ++ f :: l2) =
      runBatch cfg l1 ++ (process_one cfg f ++ runBatch cfg l2) := by
  have h1 : process_one cfg f =
      (savesOf cfg f.rel img).take k ++
        [Event.notice (Notice.failure f.rel e)] := by
    simp [process_one, hext, hsz, himg, hfail]
  refine ⟨h1, ?_, ?_⟩
  · rw [h1]
    exact List.mem_append.mpr (Or.inr (List.mem_singleton.mpr rfl))
  · show runBatch cfg (l1 ++ f :: l2) = _
    rw [runBatch_append]
    rfl

/-- Witness for C5: a file whose thumbnail write raises, between two
good files: the hi-res write survives, one failure notice appears, and
both neighbours are still processed. -/
theorem per_file_failure_contained_witness :
    process_one defaultConfig badFile =
      (savesOf defaultConfig badFile.rel catImg).take 1 ++
        [Event.notice (Notice.failure badFile.rel "broken")] ∧
    Event.notice (Notice.failure badFile.rel "broken") ∈
      process_one defaultConfig badFile ∧
    main defaultConfig ([okFile] ++ badFile :: [okFile]) =
      runBatch defaultConfig [okFile] ++
        (process_one defaultConfig badFile ++ runBatch defaultConfig [okFile]) :=
  per_file_failure_contained defaultConfig [okFile] [okFile] badFile catImg 1
    "broken" (by decide) (by decide) rfl rfl

/-! ## Claim C6 -/

/-- C6 counterexample: two distinct sources whose relative paths do not
differ only by extension can still collide — the hi-res output of a
source under `thumbs/` at the input root coincides with the thumbnail
output of a root-level source of the same stem. -/
theorem output_collision_counterexample :
    relThumbSrc ≠ relPlain ∧
    ¬ (relThumbSrc.dirs = relPlain.dirs ∧ relThumbSrc.stem = relPlain.stem) ∧
    out_hi relThumbSrc = out_thumb relPlain := by decide

/-- C6 amended: output paths are pure functions of the relative path
and artifact kind; within one artifact kind two sources collide exactly
when their relative paths agree up to the (replaced) extension; hi-res
and thumbnail outputs never collide with WebP outputs; but a hi-res
output collides with a thumbnail output precisely when the first
source's relative path is the second's prefixed by a `thumbs`
directory (stems equal). -/
theorem output_paths_deterministic_amended :
    (∀ r1 r2 : RelPath,
      out_hi r1 = out_hi r2 → r1.dirs = r2.dirs ∧ r1.stem = r2.stem) ∧
    (∀ r1 r2 : RelPath,
      out_thumb r1 = out_thumb r2 → r1.dirs = r2.dirs ∧ r1.stem = r2.stem) ∧
    (∀ r1 r2 : RelPath,
      out_webp r1 = out_webp r2 → r1.dirs = r2.dirs ∧ r1.stem = r2.stem) ∧
    (∀ r1 r2 : RelPath, out_hi r1 ≠ out_webp r2 ∧ out_thumb r1 ≠ out_webp r2) ∧
    (∀ r1 r2 : RelPath, out_hi r1 = out_thumb r2 ↔
      r1.dirs = "thumbs" :: r2.dirs ∧ r1.stem = r2.stem) := by
  refine ⟨fun r1 r2 h => ?_, fun r1 r2 h => ?_, fun r1 r2 h => ?_,
          fun r1 r2 => ⟨fun h => ?_, fun h => ?_⟩, fun r1 r2 => ⟨fun h => ?_, fun h => ?_⟩⟩
  · simpa [out_hi, joinOut, RelPath.with_suffix, OUT_DIR, OutPath.mk.injEq] using h
  · simpa [out_thumb, joinOut, RelPath.with_suffix, THUMB_DIR, OUT_DIR,
           OutPath.mk.injEq] using h
  · simpa [out_webp, joinOut, RelPath.with_suffix, OUT_DIR, OutPath.mk.injEq] using h
  · have he := congrArg OutPath.ext h
    simp only [out_hi, out_webp, joinOut, RelPath.with_suffix] at he
    exact absurd he (by decide)
  · have he := congrArg OutPath.ext h
    simp only [out_thumb, out_webp, joinOut, RelPath.with_suffix] at he
    exact absurd he (by decide)
  · simpa [out_hi, out_thumb, joinOut, RelPath.with_suffix, OUT_DIR, THUMB_DIR,
           OutPath.mk.injEq] using h
  · simp [out_hi, out_thumb, joinOut, RelPath.with_suffix, OUT_DIR, THUMB_DIR,
          OutPath.mk.injEq, h.1, h.2]

/-- Witness for C6 (amended): `x.jpg` and `x.jpeg` at the input root
share their hi-res output path, and indeed agree on dirs and stem. -/
theorem output_paths_deterministic_amended_witness :
    relPlain.dirs = relPlainJpeg.dirs ∧ relPlain.stem = relPlainJpeg.stem :=
  output_paths_deterministic_amended.1 relPlain relPlainJpeg (by decide)

/-! ## Claim C7 -/

/-- C7: in a successful run over one file, the WebP writes of the trace
are exactly one write of the hi-res derived image at the WebP output
path when `MAKE_WEBP` is set, and none otherwise — in particular the
WebP copy has the hi-res derivative's pixel dimensions, and no WebP is
ever written at the thumbnail's output path. -/
theorem webp_only_from_hi (cfg : Config) (f : SourceFile) (img : Img)
    (hext : lower f.rel.ext ∈ SUPPORTED) (hsz : f.size ≠ 0)
    (himg : f.img = some img) (hok : f.failSave = none) :
    (process_one cfg f).filter Event.isWebpWrite =
      (if cfg.MAKE_WEBP then
        [save_webp (hiOf cfg img) (out_webp f.rel) cfg.WEBP_QUALITY]
       else []) ∧
    ∀ (i : Img) (q : Nat),
      Event.write (out_thumb f.rel) i Format.WEBP q ∉ process_one cfg f := by
  have h1 : process_one cfg f = savesOf cfg f.rel img ++
      [Event.notice (Notice.success f.rel cfg.MAKE_WEBP)] := by
    simp [process_one, hext, hsz, himg, hok]
  constructor
  · rw [h1]
    cases hm : cfg.MAKE_WEBP <;>
      simp [savesOf, save_jpeg, save_webp, Event.isWebpWrite, hm]
  · intro i q hmem
    rw [h1] at hmem
    cases hm : cfg.MAKE_WEBP <;>
      simp [savesOf, save_jpeg, save_webp, hm, out_thumb, out_webp, joinOut,
            RelPath.with_suffix, THUMB_DIR, OUT_DIR, OutPath.mk.injEq] at hmem

/-- Witness for C7: the default configuration over the sample file. -/
theorem webp_only_from_hi_witness :
    (process_one defaultConfig okFile).filter Event.isWebpWrite =
      (if defaultConfig.MAKE_WEBP then
        [save_webp (hiOf defaultConfig catImg) (out_webp okFile.rel)
          defaultConfig.WEBP_QUALITY]
       else []) :=
  (webp_only_from_hi defaultConfig okFile catImg (by decide) (by decide)
    rfl rfl).1

/-! ## Claim C8 -/

/-- C8 counterexample: a grayscale-plus-alpha (`LA`) source has
transparency, yet `strip_exif` converts it to 3-channel `RGB`, not to
the 4-channel `RGBA` the claim promises for every transparent source. -/
theorem strip_exif_transparency_counterexample :
    hasTransparency laImg = true ∧
    (strip_exif laImg).mode = Mode.RGB ∧
    (strip_exif laImg).mode ≠ Mode.RGBA := by decide

/-- C8 amended: `strip_exif` keeps the mode only when it is already
`RGBA` and forces every other mode (including transparent non-`RGBA`
modes such as `LA`) to 3-channel `RGB`; it rebuilds the image from raw
pixel values only, so dimensions are preserved and metadata is empty. -/
theorem strip_exif_modes_amended (img : Img) :
    (strip_exif img).mode =
      (if img.mode = Mode.RGBA then Mode.RGBA else Mode.RGB) ∧
    (strip_exif img).metadata = [] ∧
    (strip_exif img).width = img.width ∧
    (strip_exif img).height = img.height := by
  rcases img with ⟨w, h, m, d, md⟩
  cases m <;> simp [strip_exif, Img.convert]

end Compress
